import Mathlib

/-!
Verification of `process_stereo_pairs.py` (Depth-Anything-3 stereo-pair glue
script), as a shallow embedding.

A filesystem directory is embedded as its path together with its listing
(the list of entry names, in directory-listing order).  `Path.glob` over a
directory becomes a filter over that listing; Python dict comprehension
becomes an association list in which the later binding for a key wins;
`sorted` over strings becomes `List.insertionSort (· ≤ ·)` for the
code-point lexicographic order on `String` (both compute the unique
ascending ordering of a duplicate-free list).  The effectful top level
`process_stereo_pairs` becomes a function from the filesystem state (and
two flags standing for success of the two fallible external model calls)
to the list of observable events it performs, in order, together with its
outcome (normal return or uncaught exception).
-/

/-- A filesystem path, as the directory that produced it plus the entry name
(`pathlib.Path` objects returned by `dir.glob(...)`; `.name` is the entry
name, the full path is `dir/name`). -/
structure FsPath where
  dir : String
  name : String
deriving DecidableEq, Repr

/-- Full textual form of a path, as `str(path)` would render it. -/
def FsPath.full (p : FsPath) : String := p.dir ++ "/" ++ p.name

/-- `get_timestamp_from_filename` (line 16): `filename.split("_")[0]`, i.e.
the characters of the filename strictly before the first underscore (the
whole filename when it has no underscore). -/
def get_timestamp_from_filename (filename : String) : String :=
  String.mk (filename.data.takeWhile (fun c => c ≠ '_'))

/-- Whether an entry name matches the glob pattern `*_undistorted.jpg`
used on line 26/30: the name ends with the literal suffix. -/
def matchesUndistortedGlob (name : String) : Bool :=
  List.isSuffixOf "_undistorted.jpg".data name.data

/-- The entries of a listing matched by `dir.glob("*_undistorted.jpg")`,
in listing order. -/
def globUndistorted (listing : List String) : List String :=
  listing.filter matchesUndistortedGlob

/-- The dict comprehension of lines 24-27 / 28-31, as an association list in
listing order: one entry `(timestamp key, path)` per matched file. -/
def streamImages (dir : String) (listing : List String) : List (String × FsPath) :=
  (globUndistorted listing).map (fun n => (get_timestamp_from_filename n, FsPath.mk dir n))

/-- Python-dict lookup over the association list: the latest binding for the
key wins (later comprehension entries overwrite earlier ones). -/
def dictGet : List (String × FsPath) → String → Option FsPath
  | [], _ => none
  | e :: rest, key =>
    match dictGet rest key with
    | some v => some v
    | none => if e.1 = key then some e.2 else none

/-- Executable lexicographic (code-point) comparison of char lists: the
order Python uses to compare strings. -/
def charListLT : List Char → List Char → Bool
  | [], [] => false
  | [], _ :: _ => true
  | _ :: _, [] => false
  | a :: as, b :: bs => if a < b then true else if b < a then false else charListLT as bs

/-- Executable strict comparison of strings (Python `<` on `str`). -/
def strLT (a b : String) : Bool := charListLT a.data b.data

/-- Executable non-strict comparison of strings (Python `<=` on `str`). -/
def strLE (a b : String) : Bool := !(strLT b a)

/-- Insert into a sorted list of strings, preserving ascending order. -/
def orderedInsertStr (a : String) : List String → List String
  | [] => [a]
  | b :: l => if strLE a b then a :: b :: l else b :: orderedInsertStr a l

/-- Ascending insertion sort of strings: the semantics of Python `sorted`
on a list of strings (both return the unique ascending reordering). -/
def sortStrings : List String → List String
  | [] => []
  | a :: l => orderedInsertStr a (sortStrings l)

/-- The distinct timestamp keys of a listing's matched files (`dict.keys()`
up to the set conversion on line 34). -/
def timestampKeys (listing : List String) : List String :=
  ((globUndistorted listing).map get_timestamp_from_filename).dedup

/-- Line 34: `sorted(set(stream1.keys()) & set(stream2.keys()))` — the
ascending string-sort of the keys present in both listings. -/
def common_timestamps (listing1 listing2 : List String) : List String :=
  sortStrings
    ((timestampKeys listing1).filter (fun k => (timestampKeys listing2).contains k))

/-- `find_stereo_pairs` (lines 21-41): for each common timestamp in sorted
order, the pair `(stream1_images[ts], stream2_images[ts])`.  The dict
indexing always succeeds because the key is in both dicts; the `getD`
default is never reached. -/
def find_stereo_pairs (dir1 : String) (listing1 : List String)
    (dir2 : String) (listing2 : List String) : List (FsPath × FsPath) :=
  let stream1_images := streamImages dir1 listing1
  let stream2_images := streamImages dir2 listing2
  (common_timestamps listing1 listing2).map (fun ts =>
    ((dictGet stream1_images ts).getD (FsPath.mk "" ""),
     (dictGet stream2_images ts).getD (FsPath.mk "" "")))

/-- Filesystem state observed by the script: which directories exist, and
the listing of each directory path. -/
structure Fs where
  dirs : List String
  listing : String → List String

/-- `Path.exists()` for a directory path. -/
def Fs.dirExists (fs : Fs) (d : String) : Bool := fs.dirs.contains d

/-- The observable events `process_stereo_pairs` performs, in order. -/
inductive Event where
  /-- `print(f"Found {len(pairs)} stereo pairs")` -/
  | printFoundCount (n : Nat)
  /-- `print("No matching pairs found!")` -/
  | printNoPairs
  /-- `print(f"Loading model: {model_dir}")` -/
  | printLoadingModel (model_dir : String)
  /-- `DepthAnything3.from_pretrained(model_dir)` -/
  | fromPretrained (model_dir : String)
  /-- `model.to(device=device)` -/
  | toDevice (device : String)
  /-- `output_dir.mkdir(parents=True, exist_ok=True)` -/
  | mkdirParentsExistOk (d : String)
  /-- `model.inference(inputs, export_dir=..., export_format=...)` -/
  | inference (inputs : List String) (export_dir : String) (export_format : String)
deriving DecidableEq, Repr

/-- How a run of `process_stereo_pairs` ends. -/
inductive Outcome where
  /-- normal return (process exit 0) -/
  | ok
  /-- uncaught `FileNotFoundError` with the given message (non-zero exit) -/
  | fileNotFound (msg : String)
  /-- `from_pretrained` raised; the exception propagates uncaught -/
  | loadError
  /-- `model.to(device=...)` raised; the exception propagates uncaught -/
  | deviceError
deriving DecidableEq, Repr

/-- `process_stereo_pairs` (lines 44-90): the ordered event trace of a run
and its outcome.  `loadOk` (resp. `toOk`) stands for `from_pretrained`
(resp. `model.to`) returning normally rather than raising. -/
def process_stereo_pairs (fs : Fs) (data_dir output_dir : String)
    (model_dir : String) (export_format : String) (device : String)
    (loadOk : Bool) (toOk : Bool) : List Event × Outcome :=
  let stream1_dir := data_dir ++ "/stream_1201-1"
  let stream2_dir := data_dir ++ "/stream_1201-2"
  if fs.dirExists stream1_dir = false then
    ([], Outcome.fileNotFound ("Stream 1 directory not found: " ++ stream1_dir))
  else if fs.dirExists stream2_dir = false then
    ([], Outcome.fileNotFound ("Stream 2 directory not found: " ++ stream2_dir))
  else
    let pairs := find_stereo_pairs stream1_dir (fs.listing stream1_dir)
      stream2_dir (fs.listing stream2_dir)
    let evs1 : List Event := [Event.printFoundCount pairs.length]
    if pairs.isEmpty then
      (evs1 ++ [Event.printNoPairs], Outcome.ok)
    else
      let evs2 := evs1 ++ [Event.printLoadingModel model_dir, Event.fromPretrained model_dir]
      if loadOk = false then
        (evs2, Outcome.loadError)
      else
        let evs3 := evs2 ++ [Event.toDevice device]
        if toOk = false then
          (evs3, Outcome.deviceError)
        else
          let evs4 := evs3 ++ [Event.mkdirParentsExistOk output_dir]
          let infEvs := pairs.map (fun p =>
            Event.inference [p.1.full, p.2.full]
              (output_dir ++ "/pair_" ++ get_timestamp_from_filename p.1.name)
              export_format)
          (evs4 ++ infEvs, Outcome.ok)

/-- Recognizes the model-load event. -/
def Event.isModelLoad : Event → Bool
  | Event.fromPretrained _ => true
  | _ => false

/-- Recognizes an inference event. -/
def Event.isInference : Event → Bool
  | Event.inference _ _ _ => true
  | _ => false

/-- Recognizes a directory-creation event. -/
def Event.isMkdir : Event → Bool
  | Event.mkdirParentsExistOk _ => true
  | _ => false

/-! ### Bridge lemmas: the executable string order is the code-point order -/

/-- `charListLT` decides Mathlib's lexicographic order on char lists. -/
theorem charListLT_iff : ∀ as bs : List Char, charListLT as bs = true ↔ List.Lex (· < ·) as bs := by
  intro as
  induction as with
  | nil =>
    intro bs
    cases bs with
    | nil =>
      simp only [charListLT, Bool.false_eq_true, false_iff]
      intro h; cases h
    | cons b bs =>
      simp only [charListLT, true_iff]
      exact List.Lex.nil
  | cons a as ih =>
    intro bs
    cases bs with
    | nil =>
      simp only [charListLT, Bool.false_eq_true, false_iff]
      intro h; cases h
    | cons b bs =>
      simp only [charListLT]
      by_cases hab : a < b
      · simp only [hab, if_true, true_iff]
        exact List.Lex.rel hab
      · by_cases hba : b < a
        · simp only [hab, if_false, hba, if_true, Bool.false_eq_true, false_iff]
          intro h
          cases h with
          | rel h => exact hab h
          | cons h => exact lt_irrefl a hba
        · have heq : a = b := le_antisymm (not_lt.mp hba) (not_lt.mp hab)
          subst heq
          simp only [hab, if_false, hba, if_false, ih bs]
          constructor
          · intro h; exact List.Lex.cons h
          · intro h
            cases h with
            | rel h => exact absurd h hab
            | cons h => exact h

/-- `strLT` decides `<` on `String`. -/
theorem strLT_iff (a b : String) : strLT a b = true ↔ a < b := by
  rw [String.lt_iff_toList_lt]
  exact charListLT_iff a.data b.data

/-- `strLE` decides `≤` on `String`. -/
theorem strLE_iff (a b : String) : strLE a b = true ↔ a ≤ b := by
  rw [strLE, Bool.not_eq_true']
  rw [← not_lt (a := b) (b := a), ← strLT_iff b a]
  simp

/-- `orderedInsertStr` agrees with Mathlib's `List.orderedInsert`. -/
theorem orderedInsertStr_eq (a : String) (l : List String) :
    orderedInsertStr a l = List.orderedInsert (· ≤ ·) a l := by
  induction l with
  | nil => rfl
  | cons b l ih =>
    simp only [orderedInsertStr, List.orderedInsert]
    by_cases h : a ≤ b
    · simp [(strLE_iff a b).mpr h, h]
    · have hf : strLE a b = false := by
        rw [← Bool.not_eq_true, strLE_iff]; exact h
      simp [hf, h, ih]

/-- `sortStrings` agrees with Mathlib's insertion sort for `≤`. -/
theorem sortStrings_eq (l : List String) :
    sortStrings l = List.insertionSort (· ≤ ·) l := by
  induction l with
  | nil => rfl
  | cons a l ih =>
    simp only [sortStrings, List.insertionSort, orderedInsertStr_eq, ih]

/-- `sortStrings` returns an ascending list. -/
theorem sorted_sortStrings (l : List String) : List.Sorted (· ≤ ·) (sortStrings l) := by
  rw [sortStrings_eq]
  exact List.sorted_insertionSort _ l

/-- `sortStrings` permutes its input. -/
theorem perm_sortStrings (l : List String) : (sortStrings l).Perm l := by
  rw [sortStrings_eq]
  exact List.perm_insertionSort _ l

/-! ### Dict lemmas -/

/-- A successful dict lookup returns a binding of the list. -/
theorem dictGet_mem : ∀ {m : List (String × FsPath)} {k : String} {v : FsPath},
    dictGet m k = some v → (k, v) ∈ m := by
  intro m
  induction m with
  | nil =>
    intro k v h
    simp [dictGet] at h
  | cons e rest ih =>
    intro k v h
    simp only [dictGet] at h
    cases hr : dictGet rest k with
    | some w =>
      rw [hr] at h
      cases h
      exact List.mem_cons_of_mem e (ih hr)
    | none =>
      rw [hr] at h
      by_cases he : e.1 = k
      · rw [if_pos he] at h
        cases h
        subst he
        exact List.mem_cons_self e rest
      · rw [if_neg he] at h
        cases h

/-- Dict lookup fails exactly on keys absent from the list. -/
theorem dictGet_eq_none_iff : ∀ (m : List (String × FsPath)) (k : String),
    dictGet m k = none ↔ k ∉ m.map Prod.fst := by
  intro m
  induction m with
  | nil =>
    intro k
    simp [dictGet]
  | cons e rest ih =>
    intro k
    simp only [dictGet, List.map_cons, List.mem_cons]
    cases hr : dictGet rest k with
    | some w =>
      have hk : k ∈ rest.map Prod.fst := List.mem_map_of_mem Prod.fst (dictGet_mem hr)
      simp only [reduceCtorEq, false_iff]
      intro hc
      exact hc (Or.inr hk)
    | none =>
      by_cases he : e.1 = k
      · rw [if_pos he]
        simp only [reduceCtorEq, false_iff]
        intro hc
        exact hc (Or.inl he.symm)
      · rw [if_neg he]
        simp only [true_iff]
        intro hc
        rcases hc with hc | hc
        · exact he hc.symm
        · exact (ih k).mp hr hc

/-- A key present in the dict has a successful lookup. -/
theorem dictGet_isSome_of_mem : ∀ {m : List (String × FsPath)} {k : String},
    k ∈ m.map Prod.fst → ∃ v, dictGet m k = some v := by
  intro m k h
  cases hr : dictGet m k with
  | some v => exact ⟨v, rfl⟩
  | none => exact absurd h ((dictGet_eq_none_iff m k).mp hr)

/-- The later binding for a key wins: looking up the key of the last entry
returns that entry's value, whatever came before. -/
theorem dictGet_append_singleton (m : List (String × FsPath)) (k : String) (v : FsPath) :
    dictGet (m ++ [(k, v)]) k = some v := by
  induction m with
  | nil => simp [dictGet]
  | cons e rest ih => simp [dictGet, ih]

/-! ### Stream-image and common-timestamp lemmas -/

/-- The keys of the stream dict are the timestamps of matched files. -/
theorem map_fst_streamImages (d : String) (l : List String) :
    (streamImages d l).map Prod.fst = (globUndistorted l).map get_timestamp_from_filename := by
  simp [streamImages, List.map_map]

/-- Every binding of the stream dict pairs a matched file of the listing
with its extracted timestamp. -/
theorem mem_streamImages {d : String} {l : List String} {k : String} {v : FsPath}
    (h : (k, v) ∈ streamImages d l) :
    v.dir = d ∧ v.name ∈ l ∧ matchesUndistortedGlob v.name = true
      ∧ k = get_timestamp_from_filename v.name := by
  simp only [streamImages, List.mem_map] at h
  obtain ⟨n, hn, he⟩ := h
  cases he
  have := List.mem_filter.mp hn
  exact ⟨rfl, this.1, this.2, rfl⟩

/-- Membership in a stream dict's keys is membership in `timestampKeys`. -/
theorem mem_keys_iff_timestampKeys (d : String) (l : List String) (k : String) :
    k ∈ (streamImages d l).map Prod.fst ↔ k ∈ timestampKeys l := by
  rw [map_fst_streamImages, timestampKeys, List.mem_dedup]

/-- The common timestamps are exactly the keys matched in both listings. -/
theorem mem_common_timestamps (l1 l2 : List String) (k : String) :
    k ∈ common_timestamps l1 l2 ↔ k ∈ timestampKeys l1 ∧ k ∈ timestampKeys l2 := by
  rw [common_timestamps, (perm_sortStrings _).mem_iff, List.mem_filter]
  constructor
  · intro ⟨h1, h2⟩
    exact ⟨h1, List.elem_iff.mp h2⟩
  · intro ⟨h1, h2⟩
    exact ⟨h1, List.elem_iff.mpr h2⟩

/-- The common-timestamp list has no duplicate keys. -/
theorem nodup_common_timestamps (l1 l2 : List String) :
    (common_timestamps l1 l2).Nodup := by
  rw [common_timestamps]
  exact ((perm_sortStrings _).nodup_iff).mpr ((List.nodup_dedup _).filter _)

/-- The common-timestamp list is strictly ascending in string order. -/
theorem sorted_common_timestamps (l1 l2 : List String) :
    List.Sorted (· < ·) (common_timestamps l1 l2) :=
  List.Sorted.lt_of_le (sorted_sortStrings _) (nodup_common_timestamps l1 l2)

/-- For a common timestamp, both dict lookups succeed and return a matched
file of the respective directory whose extracted key is that timestamp. -/
theorem find_stereo_pairs_lookup (d1 d2 : String) (l1 l2 : List String) {ts : String}
    (h : ts ∈ common_timestamps l1 l2) :
    ∃ v w : FsPath,
      dictGet (streamImages d1 l1) ts = some v
      ∧ dictGet (streamImages d2 l2) ts = some w
      ∧ v.dir = d1 ∧ v.name ∈ l1 ∧ get_timestamp_from_filename v.name = ts
      ∧ w.dir = d2 ∧ w.name ∈ l2 ∧ get_timestamp_from_filename w.name = ts := by
  obtain ⟨h1, h2⟩ := (mem_common_timestamps l1 l2 ts).mp h
  obtain ⟨v, hv⟩ := dictGet_isSome_of_mem ((mem_keys_iff_timestampKeys d1 l1 ts).mpr h1)
  obtain ⟨w, hw⟩ := dictGet_isSome_of_mem ((mem_keys_iff_timestampKeys d2 l2 ts).mpr h2)
  obtain ⟨hvd, hvn, _, hvk⟩ := mem_streamImages (dictGet_mem hv)
  obtain ⟨hwd, hwn, _, hwk⟩ := mem_streamImages (dictGet_mem hw)
  exact ⟨v, w, hv, hw, hvd, hvn, hvk.symm, hwd, hwn, hwk.symm⟩

/-- The timestamp keys extracted from the returned pairs (via the left
path's filename, as the processing loop does) are exactly the sorted common
timestamps. -/
theorem pairKeys_eq_common (d1 d2 : String) (l1 l2 : List String) :
    (find_stereo_pairs d1 l1 d2 l2).map (fun p => get_timestamp_from_filename p.1.name)
      = common_timestamps l1 l2 := by
  simp only [find_stereo_pairs, List.map_map]
  have hcongr : ∀ ts ∈ common_timestamps l1 l2,
      ((fun p : FsPath × FsPath => get_timestamp_from_filename p.1.name) ∘
        (fun ts => ((dictGet (streamImages d1 l1) ts).getD (FsPath.mk "" ""),
                    (dictGet (streamImages d2 l2) ts).getD (FsPath.mk "" "")))) ts
        = id ts := by
    intro ts hts
    obtain ⟨v, w, hv, hw, _, _, hvk, _⟩ := find_stereo_pairs_lookup d1 d2 l1 l2 hts
    simp [hv, hvk]
  rw [List.map_congr_left hcongr, List.map_id]

/-- Every returned pair takes its left path from the first directory and its
right path from the second. -/
theorem mem_find_stereo_pairs {d1 d2 : String} {l1 l2 : List String} {p : FsPath × FsPath}
    (h : p ∈ find_stereo_pairs d1 l1 d2 l2) :
    p.1.dir = d1 ∧ p.1.name ∈ l1 ∧ p.2.dir = d2 ∧ p.2.name ∈ l2 := by
  simp only [find_stereo_pairs, List.mem_map] at h
  obtain ⟨ts, hts, he⟩ := h
  obtain ⟨v, w, hv, hw, hvd, hvn, _, hwd, hwn, _⟩ :=
    find_stereo_pairs_lookup d1 d2 l1 l2 hts
  cases he
  simp [hv, hw, hvd, hvn, hwd, hwn]

/-! ### Claims -/

/-- C1: for every two directories, the pair finder returns exactly one
(left, right) pair per timestamp key occurring (among `*_undistorted.jpg`
files) in both directories — the pairs' keys enumerate the common keys
without repetition, the left component comes from the first directory and
the right from the second — and on the concrete directories
`{a_undistorted.jpg, b_undistorted.jpg}` and `{a_undistorted.jpg,
c_undistorted.jpg}` it returns exactly one pair, keyed `"a"`. -/
theorem C1_one_pair_per_common_key :
    (∀ (d1 d2 : String) (l1 l2 : List String),
      (find_stereo_pairs d1 l1 d2 l2).map (fun p => get_timestamp_from_filename p.1.name)
        = common_timestamps l1 l2
      ∧ (common_timestamps l1 l2).Nodup
      ∧ (∀ k, k ∈ common_timestamps l1 l2 ↔ k ∈ timestampKeys l1 ∧ k ∈ timestampKeys l2)
      ∧ (∀ p ∈ find_stereo_pairs d1 l1 d2 l2,
          p.1.dir = d1 ∧ p.1.name ∈ l1 ∧ p.2.dir = d2 ∧ p.2.name ∈ l2))
    ∧ find_stereo_pairs "D1" ["a_undistorted.jpg", "b_undistorted.jpg"]
        "D2" ["a_undistorted.jpg", "c_undistorted.jpg"]
        = [(FsPath.mk "D1" "a_undistorted.jpg", FsPath.mk "D2" "a_undistorted.jpg")] := by
  constructor
  · intro d1 d2 l1 l2
    exact ⟨pairKeys_eq_common d1 d2 l1 l2, nodup_common_timestamps l1 l2,
      fun k => mem_common_timestamps l1 l2 k, fun p hp => mem_find_stereo_pairs hp⟩
  · decide

/-- Witness for C1: instantiating the universal part on the concrete
directories of the claim and on its single returned pair. -/
theorem C1_one_pair_per_common_key_witness :
    (FsPath.mk "D1" "a_undistorted.jpg").dir = "D1"
    ∧ (FsPath.mk "D1" "a_undistorted.jpg").name ∈ ["a_undistorted.jpg", "b_undistorted.jpg"]
    ∧ (FsPath.mk "D2" "a_undistorted.jpg").dir = "D2"
    ∧ (FsPath.mk "D2" "a_undistorted.jpg").name ∈ ["a_undistorted.jpg", "c_undistorted.jpg"] :=
  (C1_one_pair_per_common_key.1 "D1" "D2"
    ["a_undistorted.jpg", "b_undistorted.jpg"] ["a_undistorted.jpg", "c_undistorted.jpg"]).2.2.2
    (FsPath.mk "D1" "a_undistorted.jpg", FsPath.mk "D2" "a_undistorted.jpg") (by decide)

/-- C2: the pair list is ordered by ascending lexicographic (string)
comparison of the timestamp keys; in particular with intersecting keys
`{"10", "2"}` the returned key order is `["10", "2"]`, not `["2", "10"]`. -/
theorem C2_pairs_sorted_lexicographically :
    (∀ (d1 d2 : String) (l1 l2 : List String),
      List.Sorted (· < ·)
        ((find_stereo_pairs d1 l1 d2 l2).map (fun p => get_timestamp_from_filename p.1.name)))
    ∧ (find_stereo_pairs "S1" ["2_undistorted.jpg", "10_undistorted.jpg"]
        "S2" ["10_undistorted.jpg", "2_undistorted.jpg"]).map
          (fun p => get_timestamp_from_filename p.1.name) = ["10", "2"] := by
  constructor
  · intro d1 d2 l1 l2
    rw [pairKeys_eq_common]
    exact sorted_common_timestamps l1 l2
  · decide

/-- C3: when both stream directories exist but no timestamp key is common,
the run prints the pair count (0) and the "no pairs" message, returns
normally, and its trace contains no model load, no inference call and no
directory creation — not even the output root. -/
theorem C3_empty_intersection_returns_normally
    (fs : Fs) (data_dir output_dir model_dir export_format device : String)
    (loadOk toOk : Bool)
    (h1 : fs.dirExists (data_dir ++ "/stream_1201-1") = true)
    (h2 : fs.dirExists (data_dir ++ "/stream_1201-2") = true)
    (hempty : common_timestamps (fs.listing (data_dir ++ "/stream_1201-1"))
        (fs.listing (data_dir ++ "/stream_1201-2")) = []) :
    process_stereo_pairs fs data_dir output_dir model_dir export_format device loadOk toOk
        = ([Event.printFoundCount 0, Event.printNoPairs], Outcome.ok)
    ∧ (process_stereo_pairs fs data_dir output_dir model_dir export_format device
        loadOk toOk).1.all
          (fun e => !e.isModelLoad && !e.isInference && !e.isMkdir) = true := by
    have hmain : process_stereo_pairs fs data_dir output_dir model_dir export_format device
        loadOk toOk = ([Event.printFoundCount 0, Event.printNoPairs], Outcome.ok) := by
      simp [process_stereo_pairs, find_stereo_pairs, h1, h2, hempty]
    refine ⟨hmain, ?_⟩
    rw [hmain]
    rfl

/-- Witness for C3 at a concrete filesystem with two empty stream
directories. -/
theorem C3_empty_intersection_returns_normally_witness :
    process_stereo_pairs
        (Fs.mk ["d/stream_1201-1", "d/stream_1201-2"] (fun _ => []))
        "d" "out" "m" "npz" "cuda" true true
      = ([Event.printFoundCount 0, Event.printNoPairs], Outcome.ok) :=
  (C3_empty_intersection_returns_normally
    (Fs.mk ["d/stream_1201-1", "d/stream_1201-2"] (fun _ => []))
    "d" "out" "m" "npz" "cuda" true true (by decide) (by decide) (by decide)).1

/-- C4: a missing stream subdirectory makes the run end with an uncaught
directory-not-found error (non-zero exit) with an empty trace: nothing —
in particular no model load and no processing — has happened. -/
theorem C4_missing_stream_dir_aborts_before_anything
    (fs : Fs) (data_dir output_dir model_dir export_format device : String)
    (loadOk toOk : Bool) :
    (fs.dirExists (data_dir ++ "/stream_1201-1") = false →
      process_stereo_pairs fs data_dir output_dir model_dir export_format device loadOk toOk
        = ([], Outcome.fileNotFound
            ("Stream 1 directory not found: " ++ (data_dir ++ "/stream_1201-1"))))
    ∧ (fs.dirExists (data_dir ++ "/stream_1201-1") = true →
       fs.dirExists (data_dir ++ "/stream_1201-2") = false →
      process_stereo_pairs fs data_dir output_dir model_dir export_format device loadOk toOk
        = ([], Outcome.fileNotFound
            ("Stream 2 directory not found: " ++ (data_dir ++ "/stream_1201-2")))) := by
  constructor
  · intro h1
    simp [process_stereo_pairs, h1]
  · intro h1 h2
    simp [process_stereo_pairs, h1, h2]

/-- Witness for C4 on a filesystem with no directories at all. -/
theorem C4_missing_stream_dir_aborts_before_anything_witness :
    process_stereo_pairs (Fs.mk [] (fun _ => [])) "d" "out" "m" "npz" "cuda" true true
      = ([], Outcome.fileNotFound "Stream 1 directory not found: d/stream_1201-1") :=
  (C4_missing_stream_dir_aborts_before_anything
    (Fs.mk [] (fun _ => [])) "d" "out" "m" "npz" "cuda" true true).1 (by decide)

/-- C9: the pair finder is a pure function of the observed filesystem
state: two invocations observing identical directory listings return
identical pair lists, and a whole run's behaviour depends on the filesystem
only through the existence and listings of the two stream directories. -/
theorem C9_pair_finder_pure
    (d1 d2 : String) (l1 l1' l2 l2' : List String)
    (fs fs' : Fs) (data_dir output_dir model_dir export_format device : String)
    (loadOk toOk : Bool) :
    (l1 = l1' → l2 = l2' →
      find_stereo_pairs d1 l1 d2 l2 = find_stereo_pairs d1 l1' d2 l2')
    ∧ (fs.dirExists (data_dir ++ "/stream_1201-1")
          = fs'.dirExists (data_dir ++ "/stream_1201-1") →
       fs.dirExists (data_dir ++ "/stream_1201-2")
          = fs'.dirExists (data_dir ++ "/stream_1201-2") →
       fs.listing (data_dir ++ "/stream_1201-1")
          = fs'.listing (data_dir ++ "/stream_1201-1") →
       fs.listing (data_dir ++ "/stream_1201-2")
          = fs'.listing (data_dir ++ "/stream_1201-2") →
       process_stereo_pairs fs data_dir output_dir model_dir export_format device loadOk toOk
         = process_stereo_pairs fs' data_dir output_dir model_dir export_format device
             loadOk toOk) := by
  constructor
  · intro he1 he2
    rw [he1, he2]
  · intro hx1 hx2 hl1 hl2
    simp only [process_stereo_pairs, hx1, hx2, hl1, hl2]

/-- Witness for C9: two distinct filesystem values agreeing on the two
stream directories yield the same run. -/
theorem C9_pair_finder_pure_witness :
    process_stereo_pairs (Fs.mk ["d/stream_1201-1", "d/stream_1201-2"] (fun _ => []))
        "d" "out" "m" "npz" "cuda" true true
      = process_stereo_pairs
          (Fs.mk ["d/stream_1201-2", "d/stream_1201-1", "elsewhere"] (fun _ => []))
          "d" "out" "m" "npz" "cuda" true true :=
  (C9_pair_finder_pure "x" "y" [] [] [] []
    (Fs.mk ["d/stream_1201-1", "d/stream_1201-2"] (fun _ => []))
    (Fs.mk ["d/stream_1201-2", "d/stream_1201-1", "elsewhere"] (fun _ => []))
    "d" "out" "m" "npz" "cuda" true true).2
    (by decide) (by decide) (by decide) (by decide)

/-- The pair list a run of the top level computes from the filesystem. -/
def runPairs (fs : Fs) (data_dir : String) : List (FsPath × FsPath) :=
  find_stereo_pairs (data_dir ++ "/stream_1201-1") (fs.listing (data_dir ++ "/stream_1201-1"))
    (data_dir ++ "/stream_1201-2") (fs.listing (data_dir ++ "/stream_1201-2"))

/-- The inference event the loop body performs for one pair. -/
def inferenceEventOf (output_dir export_format : String) (p : FsPath × FsPath) : Event :=
  Event.inference [p.1.full, p.2.full]
    (output_dir ++ "/pair_" ++ get_timestamp_from_filename p.1.name) export_format

/-- Trace of a run in which both directories exist, some pair is found,
and both external model calls succeed. -/
theorem process_success_trace
    (fs : Fs) (data_dir output_dir model_dir export_format device : String)
    (h1 : fs.dirExists (data_dir ++ "/stream_1201-1") = true)
    (h2 : fs.dirExists (data_dir ++ "/stream_1201-2") = true)
    (hne : runPairs fs data_dir ≠ []) :
    process_stereo_pairs fs data_dir output_dir model_dir export_format device true true
      = ([Event.printFoundCount (runPairs fs data_dir).length,
          Event.printLoadingModel model_dir, Event.fromPretrained model_dir,
          Event.toDevice device, Event.mkdirParentsExistOk output_dir]
          ++ (runPairs fs data_dir).map (inferenceEventOf output_dir export_format),
         Outcome.ok) := by
  have hpairs : find_stereo_pairs (data_dir ++ "/stream_1201-1")
      (fs.listing (data_dir ++ "/stream_1201-1")) (data_dir ++ "/stream_1201-2")
      (fs.listing (data_dir ++ "/stream_1201-2")) = runPairs fs data_dir := rfl
  have hie : (runPairs fs data_dir).isEmpty = false := List.isEmpty_eq_false.mpr hne
  simp only [process_stereo_pairs, h1, h2, hpairs, hie, Bool.true_eq_false, reduceIte]
  rfl

/-- Trace of a run that finds pairs but whose model load raises. -/
theorem process_load_failure_trace
    (fs : Fs) (data_dir output_dir model_dir export_format device : String) (toOk : Bool)
    (h1 : fs.dirExists (data_dir ++ "/stream_1201-1") = true)
    (h2 : fs.dirExists (data_dir ++ "/stream_1201-2") = true)
    (hne : runPairs fs data_dir ≠ []) :
    process_stereo_pairs fs data_dir output_dir model_dir export_format device false toOk
      = ([Event.printFoundCount (runPairs fs data_dir).length,
          Event.printLoadingModel model_dir, Event.fromPretrained model_dir],
         Outcome.loadError) := by
  have hpairs : find_stereo_pairs (data_dir ++ "/stream_1201-1")
      (fs.listing (data_dir ++ "/stream_1201-1")) (data_dir ++ "/stream_1201-2")
      (fs.listing (data_dir ++ "/stream_1201-2")) = runPairs fs data_dir := rfl
  have hie : (runPairs fs data_dir).isEmpty = false := List.isEmpty_eq_false.mpr hne
  simp only [process_stereo_pairs, h1, h2, hpairs, hie, Bool.true_eq_false, reduceIte]
  rfl

/-- Trace of a run that loads the model but whose device move raises. -/
theorem process_device_failure_trace
    (fs : Fs) (data_dir output_dir model_dir export_format device : String)
    (h1 : fs.dirExists (data_dir ++ "/stream_1201-1") = true)
    (h2 : fs.dirExists (data_dir ++ "/stream_1201-2") = true)
    (hne : runPairs fs data_dir ≠ []) :
    process_stereo_pairs fs data_dir output_dir model_dir export_format device true false
      = ([Event.printFoundCount (runPairs fs data_dir).length,
          Event.printLoadingModel model_dir, Event.fromPretrained model_dir,
          Event.toDevice device],
         Outcome.deviceError) := by
  have hpairs : find_stereo_pairs (data_dir ++ "/stream_1201-1")
      (fs.listing (data_dir ++ "/stream_1201-1")) (data_dir ++ "/stream_1201-2")
      (fs.listing (data_dir ++ "/stream_1201-2")) = runPairs fs data_dir := rfl
  have hie : (runPairs fs data_dir).isEmpty = false := List.isEmpty_eq_false.mpr hne
  simp only [process_stereo_pairs, h1, h2, hpairs, hie, Bool.true_eq_false, reduceIte]
  rfl

/-- C5: in a completed run, the trace contains exactly one inference event
per pair, in pair order, whose inputs are exactly the pair's two full paths
(left then right) and whose export directory is `output_dir/pair_<key>` for
that pair's timestamp key — and the pairs' keys are exactly the sorted
common timestamps. -/
theorem C5_one_inference_per_pair
    (fs : Fs) (data_dir output_dir model_dir export_format device : String)
    (h1 : fs.dirExists (data_dir ++ "/stream_1201-1") = true)
    (h2 : fs.dirExists (data_dir ++ "/stream_1201-2") = true)
    (hne : runPairs fs data_dir ≠ []) :
    (process_stereo_pairs fs data_dir output_dir model_dir export_format device
        true true).1.filter Event.isInference
      = (runPairs fs data_dir).map (fun p =>
          Event.inference [p.1.full, p.2.full]
            (output_dir ++ "/pair_" ++ get_timestamp_from_filename p.1.name) export_format)
    ∧ (runPairs fs data_dir).map (fun p => get_timestamp_from_filename p.1.name)
        = common_timestamps (fs.listing (data_dir ++ "/stream_1201-1"))
            (fs.listing (data_dir ++ "/stream_1201-2")) := by
  constructor
  · rw [process_success_trace fs data_dir output_dir model_dir export_format device h1 h2 hne]
    simp only [List.filter_append]
    have hpre : List.filter Event.isInference
        [Event.printFoundCount (runPairs fs data_dir).length,
         Event.printLoadingModel model_dir, Event.fromPretrained model_dir,
         Event.toDevice device, Event.mkdirParentsExistOk output_dir] = [] := rfl
    rw [hpre, List.nil_append]
    rw [List.filter_eq_self.mpr]
    · rfl
    · intro e he
      obtain ⟨p, _, rfl⟩ := List.mem_map.mp he
      rfl
  · exact pairKeys_eq_common _ _ _ _

/-- Witness for C5: one concrete pair with key `44335766666666` produces
exactly the inference event with export directory `out/pair_44335766666666`. -/
theorem C5_one_inference_per_pair_witness :
    (process_stereo_pairs
        (Fs.mk ["d/stream_1201-1", "d/stream_1201-2"]
          (fun _ => ["44335766666666_undistorted.jpg"]))
        "d" "out" "m" "npz" "cuda" true true).1.filter Event.isInference
      = [Event.inference
          ["d/stream_1201-1/44335766666666_undistorted.jpg",
           "d/stream_1201-2/44335766666666_undistorted.jpg"]
          "out/pair_44335766666666" "npz"] := by
  have h := (C5_one_inference_per_pair
    (Fs.mk ["d/stream_1201-1", "d/stream_1201-2"]
      (fun _ => ["44335766666666_undistorted.jpg"]))
    "d" "out" "m" "npz" "cuda" (by decide) (by decide) (by decide)).1
  rw [h]
  decide

/-- C6: in a run that reaches processing with at least one pair, the model
is loaded exactly once and the inference operation is invoked exactly once
per pair (N pairs, N inference events). -/
theorem C6_one_load_n_inferences
    (fs : Fs) (data_dir output_dir model_dir export_format device : String)
    (h1 : fs.dirExists (data_dir ++ "/stream_1201-1") = true)
    (h2 : fs.dirExists (data_dir ++ "/stream_1201-2") = true)
    (hne : runPairs fs data_dir ≠ []) :
    ((process_stereo_pairs fs data_dir output_dir model_dir export_format device
        true true).1.filter Event.isModelLoad).length = 1
    ∧ ((process_stereo_pairs fs data_dir output_dir model_dir export_format device
        true true).1.filter Event.isInference).length = (runPairs fs data_dir).length := by
  constructor
  · rw [process_success_trace fs data_dir output_dir model_dir export_format device h1 h2 hne]
    simp only [List.filter_append]
    have hpre : List.filter Event.isModelLoad
        [Event.printFoundCount (runPairs fs data_dir).length,
         Event.printLoadingModel model_dir, Event.fromPretrained model_dir,
         Event.toDevice device, Event.mkdirParentsExistOk output_dir]
        = [Event.fromPretrained model_dir] := rfl
    have hmap : ((runPairs fs data_dir).map
        (inferenceEventOf output_dir export_format)).filter Event.isModelLoad = [] := by
      rw [List.filter_eq_nil_iff]
      intro e he
      obtain ⟨p, _, rfl⟩ := List.mem_map.mp he
      simp [inferenceEventOf, Event.isModelLoad]
    rw [hpre, hmap]
    rfl
  · rw [(C5_one_inference_per_pair fs data_dir output_dir model_dir export_format device
      h1 h2 hne).1]
    exact List.length_map _ _

/-- Witness for C6 on a concrete one-pair run. -/
theorem C6_one_load_n_inferences_witness :
    ((process_stereo_pairs
        (Fs.mk ["d/stream_1201-1", "d/stream_1201-2"]
          (fun _ => ["7_undistorted.jpg"]))
        "d" "out" "m" "npz" "cuda" true true).1.filter Event.isModelLoad).length = 1 :=
  (C6_one_load_n_inferences
    (Fs.mk ["d/stream_1201-1", "d/stream_1201-2"] (fun _ => ["7_undistorted.jpg"]))
    "d" "out" "m" "npz" "cuda" (by decide) (by decide) (by decide)).1

/-- C7 counterexample: it is not true that every matched file of the shape
`<t>_undistorted.jpg` yields key `<t>` — for `t = "a_b"` the filename is
`a_b_undistorted.jpg` and the extracted key is `"a"`, not `"a_b"`, because
the key stops at the first underscore. -/
theorem C7_counterexample :
    ¬ (∀ t : String, get_timestamp_from_filename (t ++ "_undistorted.jpg") = t) := by
  intro h
  exact absurd (h "a_b") (by decide)

/-- C7 (amended): the timestamp key of any filename is the substring
preceding the first underscore; hence for a matched file
`<t>_undistorted.jpg` whose `<t>` itself contains no underscore, the
extracted key is `<t>`. -/
theorem C7_key_is_text_before_first_underscore
    (t : String) (h : t.data.all (fun c => c ≠ '_') = true) :
    get_timestamp_from_filename (t ++ "_undistorted.jpg") = t := by
  have hall : ∀ c ∈ t.data, (fun c => decide (c ≠ '_')) c = true := by
    intro c hc
    exact (List.all_eq_true.mp h) c hc
  rw [get_timestamp_from_filename, String.data_append,
    List.takeWhile_append_of_pos hall]
  have hsuffix : "_undistorted.jpg".data.takeWhile (fun c => decide (c ≠ '_')) = [] := rfl
  rw [hsuffix, List.append_nil]

/-- Witness for C7 (amended) at the underscore-free timestamp of the spec's
example filename. -/
theorem C7_key_is_text_before_first_underscore_witness :
    get_timestamp_from_filename ("44335766666666" ++ "_undistorted.jpg")
      = "44335766666666" :=
  C7_key_is_text_before_first_underscore "44335766666666" (by decide)

/-- C8: duplicate timestamp keys inside one directory are not rejected: the
dict binding for a key is the matched file occurring later in listing
order, and on the concrete listing `[a_1_undistorted.jpg,
a_2_undistorted.jpg]` (both keyed `"a"`) exactly the later file appears in
the single returned pair — no error, a normal result. -/
theorem C8_duplicate_keys_silently_overwrite :
    (∀ (d : String) (l : List String) (f : String),
      matchesUndistortedGlob f = true →
      dictGet (streamImages d (l ++ [f])) (get_timestamp_from_filename f)
        = some (FsPath.mk d f))
    ∧ find_stereo_pairs "D1" ["a_1_undistorted.jpg", "a_2_undistorted.jpg"]
        "D2" ["a_undistorted.jpg"]
        = [(FsPath.mk "D1" "a_2_undistorted.jpg", FsPath.mk "D2" "a_undistorted.jpg")] := by
  constructor
  · intro d l f hf
    have hsplit : streamImages d (l ++ [f])
        = streamImages d l ++ [(get_timestamp_from_filename f, FsPath.mk d f)] := by
      simp [streamImages, globUndistorted, List.filter_append, hf]
    rw [hsplit, dictGet_append_singleton]
  · decide

/-- Witness for C8: the general last-binding-wins statement at the concrete
duplicate-keyed listing of the claim. -/
theorem C8_duplicate_keys_silently_overwrite_witness :
    dictGet (streamImages "D1" (["a_1_undistorted.jpg"] ++ ["a_2_undistorted.jpg"]))
        (get_timestamp_from_filename "a_2_undistorted.jpg")
      = some (FsPath.mk "D1" "a_2_undistorted.jpg") :=
  C8_duplicate_keys_silently_overwrite.1 "D1" ["a_1_undistorted.jpg"]
    "a_2_undistorted.jpg" (by decide)

/-- C10: with a non-empty pair list, the output root is created only after
both external model calls succeed: a run whose model load (or device move)
raises has a trace without any directory creation or inference — the
filesystem is untouched when the error propagates — while the successful
run's trace creates the output root strictly after the load event. -/
theorem C10_output_root_created_only_after_model_load
    (fs : Fs) (data_dir output_dir model_dir export_format device : String) (toOk : Bool)
    (h1 : fs.dirExists (data_dir ++ "/stream_1201-1") = true)
    (h2 : fs.dirExists (data_dir ++ "/stream_1201-2") = true)
    (hne : runPairs fs data_dir ≠ []) :
    ((process_stereo_pairs fs data_dir output_dir model_dir export_format device
        false toOk).1.all (fun e => !e.isMkdir && !e.isInference) = true
      ∧ (process_stereo_pairs fs data_dir output_dir model_dir export_format device
          false toOk).2 = Outcome.loadError)
    ∧ ((process_stereo_pairs fs data_dir output_dir model_dir export_format device
        true false).1.all (fun e => !e.isMkdir && !e.isInference) = true
      ∧ (process_stereo_pairs fs data_dir output_dir model_dir export_format device
          true false).2 = Outcome.deviceError)
    ∧ (process_stereo_pairs fs data_dir output_dir model_dir export_format device
        true true).1
        = [Event.printFoundCount (runPairs fs data_dir).length,
           Event.printLoadingModel model_dir, Event.fromPretrained model_dir,
           Event.toDevice device, Event.mkdirParentsExistOk output_dir]
          ++ (runPairs fs data_dir).map (inferenceEventOf output_dir export_format) := by
  refine ⟨?_, ?_, ?_⟩
  · rw [process_load_failure_trace fs data_dir output_dir model_dir export_format device
      toOk h1 h2 hne]
    exact ⟨rfl, rfl⟩
  · rw [process_device_failure_trace fs data_dir output_dir model_dir export_format device
      h1 h2 hne]
    exact ⟨rfl, rfl⟩
  · rw [process_success_trace fs data_dir output_dir model_dir export_format device h1 h2 hne]

/-- Witness for C10: a concrete one-pair run whose model load fails
performs neither directory creation nor inference. -/
theorem C10_output_root_created_only_after_model_load_witness :
    (process_stereo_pairs
        (Fs.mk ["d/stream_1201-1", "d/stream_1201-2"] (fun _ => ["7_undistorted.jpg"]))
        "d" "out" "m" "npz" "cuda" false true).1.all
          (fun e => !e.isMkdir && !e.isInference) = true :=
  ((C10_output_root_created_only_after_model_load
    (Fs.mk ["d/stream_1201-1", "d/stream_1201-2"] (fun _ => ["7_undistorted.jpg"]))
    "d" "out" "m" "npz" "cuda" true (by decide) (by decide) (by decide)).1).1
